import Mathlib

/-!
Shallow embedding of the Wikipedia dead-link finder
(`wikipedia_dead_links_streamlit.py`) and proofs about its
domain classifier, availability prober, link extractor, liveness
checker, result store and batch orchestrator.

Python string operations are modelled over `List Char` so that every
definition is executable and kernel-reducible.  External effects
(WHOIS lookups, DNS resolution, HTTP requests, the clock, the file
system) enter as explicit parameters describing their outcome.
-/

/-! ## String helpers (models of the Python `str` operations used) -/

/-- Model of Python `str.lower()` (ASCII case folding, which is all the
source's domain strings need). -/
def lower_str (s : String) : String := String.mk (s.data.map Char.toLower)

/-- `list_has_suffix s post` models Python `s.endswith(post)` on the
underlying character lists. -/
def list_has_suffix (s post : List Char) : Bool :=
  post == s.drop (s.length - post.length)

/-- `list_has_start s pre` models Python `s.startswith(pre)` on the
underlying character lists. -/
def list_has_start (s pre : List Char) : Bool :=
  pre == s.take pre.length

/-- Model of Python `s.endswith(post)` for `String`. -/
def str_ends_with (s post : String) : Bool := list_has_suffix s.data post.data

/-- Model of Python `s.startswith(pre)` for `String`. -/
def str_starts_with (s pre : String) : Bool := list_has_start s.data pre.data

/-- Model of Python `s.split('.')`: splitting on every dot, keeping empty
pieces, so that `"".split('.') == ['']`. -/
def split_dot : List Char → List (List Char)
  | [] => [[]]
  | c :: rest =>
    let ps := split_dot rest
    if c == '.' then [] :: ps
    else
      match ps with
      | [] => [[c]]
      | p :: ps2 => (c :: p) :: ps2

/-- Model of Python `'.'.join(parts)`. -/
def join_dot : List (List Char) → List Char
  | [] => []
  | [p] => p
  | p :: ps => p ++ '.' :: join_dot ps

/-- Characters stripped by Python `str.strip()` (the whitespace actually
occurring in anchor text). -/
def is_space_char (c : Char) : Bool :=
  c == ' ' || c == '\t' || c == '\n' || c == '\r' || c == '\x0b' || c == '\x0c'

/-- Model of Python `str.strip()`. -/
def strip_str (s : String) : String :=
  String.mk (((s.data.dropWhile is_space_char).reverse.dropWhile is_space_char).reverse)

/-! ## Domain classifier -/

/-- `self.restricted_tlds` from the constructor. -/
def restricted_tlds : List String :=
  ["edu", "gov", "mil", "int", "arpa",
   "us.gov", "us.edu", "ac.uk", "gov.uk", "mil.uk", "ac.id", "nhs.uk",
   "police.uk", "mod.uk", "parliament.uk", "gov.au", "edu.au"]

/-- `self.excluded_domain_endings` from the constructor. -/
def excluded_domain_endings : List String :=
  [".de", ".bg", ".br", ".com.au", ".edu.tw", ".dk", ".com:80", ".co.in",
   ".im", ".org:80", ".is", ".ch", ".ac.at", ".gov.ua", ".edu:8000",
   ".gov.pt", ".pk", ".hu", ".uam.es", ".at", ".jp", ".fi"]

/-- `is_excluded_domain`: a falsy (empty) domain is excluded, otherwise the
domain is excluded when its lowercase form ends with one of the excluded
endings. -/
def is_excluded_domain (domain : String) : Bool :=
  if domain = "" then true
  else excluded_domain_endings.any
    (fun ending => str_ends_with (lower_str domain) (lower_str ending))

/-- `domain_parts = domain.lower().split('.')` from `is_restricted_tld`. -/
def domain_labels (domain : String) : List (List Char) :=
  split_dot (lower_str domain).data

/-- `'.'.join(domain_parts[-2:])` from `is_restricted_tld`. -/
def last_two_labels (domain : String) : List Char :=
  join_dot ((domain_labels domain).drop ((domain_labels domain).length - 2))

/-- `is_restricted_tld`: falsy and single-label domains are never
restricted; the final label is tested against the five top-level
restrictions, and (only when there are more than two labels) the last two
labels joined by a dot are tested against `restricted_tlds`. -/
def is_restricted_tld (domain : String) : Bool :=
  if domain = "" then false
  else if (domain_labels domain).length < 2 then false
  else if ["edu", "gov", "mil", "int", "arpa"].any
      (fun t => t.data == (domain_labels domain).getLastD []) then true
  else if 2 < (domain_labels domain).length then
    restricted_tlds.any (fun t => t.data == last_two_labels domain)
  else false

/-! ## Availability prober -/

/-- The `details` payload of an availability verdict, one constructor per
dict shape produced by `check_domain_availability`. -/
inductive Details where
  | empty : Details
  | info (s : String) : Details
  | whoisRaw (s : String) : Details
  | expired (expiration_date : Int) (registrar : String) : Details
  | registered (registrar : String) (creation_date : String) (expiration_date : String) : Details
deriving DecidableEq, Repr

/-- The dict returned by `check_domain_availability`. -/
structure AvailResult where
  available : Bool
  status : String
  details : Details
deriving DecidableEq, Repr

/-- The parsed WHOIS record (`w`) as consumed by the prober.  Dates are
modelled as integers (comparison is all the code does with them);
`expiration_date` is optional and may be a single date or a list, matching
the python-whois library.  The `..._str` fields stand for the `str(...)`
renderings used in the `Registered` payload. -/
structure WhoisRecord where
  registrar : Option String
  expiration_date : Option (Sum Int (List Int))
  creation_date_str : String
  expiration_date_str : String
  raw : String
deriving DecidableEq, Repr

/-- Outcome of the `whois.whois(domain)` call: a record, the
`PywhoisError` raised when there is no WHOIS record, or any other
exception with its message. -/
inductive WhoisOutcome where
  | ok (w : WhoisRecord) : WhoisOutcome
  | noRecord : WhoisOutcome
  | err (msg : String) : WhoisOutcome
deriving DecidableEq, Repr

/-- The truthiness test `hasattr(w, 'expiration_date') and w.expiration_date`
followed by `expiry = expiry[0]` when the value is a list: yields the date
the code compares against `datetime.now()`, or `none` when the field is
absent, `None`, or an empty list. -/
def first_expiry : Option (Sum Int (List Int)) → Option Int
  | none => none
  | some (Sum.inl d) => some d
  | some (Sum.inr []) => none
  | some (Sum.inr (d :: _)) => some d

/-- `check_domain_availability(domain)`.  `wres` is the outcome of the
WHOIS call, `dns_resolves` the outcome of `socket.gethostbyname`, and
`now` the value of `datetime.now()`. -/
def check_domain_availability (domain : String) (wres : WhoisOutcome)
    (dns_resolves : Bool) (now : Int) : AvailResult :=
  if domain = "" then
    ⟨false, "Invalid domain", Details.empty⟩
  else if is_excluded_domain domain then
    ⟨false, "Excluded domain",
      Details.info "This domain has been excluded from availability checks."⟩
  else if is_restricted_tld domain then
    ⟨false, "Restricted TLD (not available for general registration)",
      Details.info "This is a restricted domain that requires special eligibility requirements."⟩
  else
    match wres with
    | WhoisOutcome.ok w =>
      match w.registrar with
      | none => ⟨true, "Potentially available", Details.whoisRaw w.raw⟩
      | some r =>
        match first_expiry w.expiration_date with
        | some expiry =>
          if expiry < now then
            ⟨true, "Expired", Details.expired expiry r⟩
          else
            ⟨false, "Registered",
              Details.registered r w.creation_date_str w.expiration_date_str⟩
        | none =>
          ⟨false, "Registered",
            Details.registered r w.creation_date_str w.expiration_date_str⟩
    | WhoisOutcome.noRecord =>
      if dns_resolves then
        ⟨false, "DNS record exists", Details.empty⟩
      else if is_restricted_tld domain || is_excluded_domain domain then
        ⟨false, "Restricted TLD or excluded domain",
          Details.info "This domain is either restricted or has been excluded."⟩
      else
        ⟨true, "No DNS record found", Details.empty⟩
    | WhoisOutcome.err msg =>
      ⟨false, "Error: " ++ msg, Details.empty⟩

/-! ## `extract_domain` and the `urlparse` authority model -/

/-- The characters Python's `urllib.parse` accepts inside a URL scheme
after the leading letter. -/
def scheme_char (c : Char) : Bool :=
  c.isAlpha || c.isDigit || c == '+' || c == '-' || c == '.'

/-- Scheme stripping done by `urlparse`: when the first colon is preceded
by a letter followed by scheme characters only, everything up to and
including the colon is removed. -/
def strip_scheme (cs : List Char) : List Char :=
  match cs.findIdx? (fun c => c == ':') with
  | none => cs
  | some i =>
    if 0 < i ∧ (cs.headD ' ').isAlpha ∧ (cs.take i).all scheme_char then
      cs.drop (i + 1)
    else cs

/-- The authority (`netloc`) component as computed by `urlparse`: present
only when the remainder after the scheme starts with `//`, extending to
the next `/`, `?` or `#`; mismatched square brackets (an invalid IPv6
literal) raise `ValueError`, modelled as `Except.error`. -/
def urlparse_netloc (url : String) : Except Unit String :=
  let rest := strip_scheme url.data
  if rest.take 2 == ['/', '/'] then
    let netloc := (rest.drop 2).takeWhile (fun c => !(c == '/' || c == '?' || c == '#'))
    if (netloc.contains '[' && !netloc.contains ']')
        || (netloc.contains ']' && !netloc.contains '[') then
      Except.error ()
    else
      Except.ok (String.mk netloc)
  else
    Except.ok ""

/-- `extract_domain(url)`: the `netloc` of the parsed URL with a leading
`www.` removed; `None` when `urlparse` raises. -/
def extract_domain (url : String) : Option String :=
  match urlparse_netloc url with
  | Except.error _ => none
  | Except.ok netloc =>
    some (if str_starts_with netloc "www." then String.mk (netloc.data.drop 4) else netloc)

/-! ## Link extractor -/

/-- An `<a>` element carrying the `external` class, as consumed by
`extract_external_links`: its optional `href` attribute and its text. -/
structure Anchor where
  href : Option String
  text : String
deriving DecidableEq, Repr

/-- A `{url, text}` entry produced by the extractor. -/
structure LinkEntry where
  url : String
  text : String
deriving DecidableEq, Repr

/-- The query results of the two BeautifulSoup scans the extractor runs:
`ext_section_lis` is, when the `External_links` heading and a following
`<ul>` exist, the list of that list's `<li>` items, each holding its
`external`-class anchors; `external_anchors` is every `external`-class
anchor in the document, in document order. -/
structure SoupDoc where
  ext_section_lis : Option (List (List Anchor))
  external_anchors : List Anchor
deriving DecidableEq, Repr

/-- The per-anchor body shared by both scans: anchors without `href` are
skipped, anchors whose URL starts with `https://web.archive.org` are
skipped, and the rest contribute `{url, stripped text}`. -/
def anchor_entry (a : Anchor) : Option LinkEntry :=
  match a.href with
  | none => none
  | some url =>
    if str_starts_with url "https://web.archive.org" then none
    else some ⟨url, strip_str a.text⟩

/-- `extract_external_links(soup)`: the External-links-section walk
followed by the document-wide `external`-class scan. -/
def extract_external_links (doc : SoupDoc) : List LinkEntry :=
  (match doc.ext_section_lis with
   | none => []
   | some lis => lis.flatMap (fun li => li.filterMap anchor_entry))
  ++ doc.external_anchors.filterMap anchor_entry

/-! ## Liveness checker and the available-domains store -/

/-- A link's `status_code`: an integer HTTP code or a stringified
exception (`"Error: ..."`). -/
abbrev StatusCode := Sum String Nat

/-- Outcome of one HTTP attempt (HEAD or GET): `Sum.inr code` when the
request returned, `Sum.inl msg` when it raised (the message already
carrying the `"Error: "` rendering the code builds). -/
def final_status (head get : StatusCode) : StatusCode :=
  match head with
  | Sum.inl _ => get
  | Sum.inr code => if 400 ≤ code then get else Sum.inr code

/-- The dead-link test `isinstance(status_code, str) or status_code >= 400`,
used both for the GET retry and for the dead classification. -/
def is_dead : StatusCode → Bool
  | Sum.inl _ => true
  | Sum.inr code => decide (400 ≤ code)

/-- The link dict handed to `check_link_status`: `url`, `text`, and the
optional `article_title` / `article_url` keys read via `.get(…, 'Unknown')`. -/
structure LinkInput where
  url : String
  text : String
  article_title : Option String
  article_url : Option String
deriving DecidableEq, Repr

/-- One entry of a DomainRecord's `sources` list. -/
structure SourceInfo where
  url : String
  text : String
  article_title : String
  article_url : String
deriving DecidableEq, Repr

/-- A record of the `available_domains` map. -/
structure DomainRecord where
  domain : String
  status : String
  details : Details
  found_on : String
  sources : List SourceInfo
deriving DecidableEq, Repr

/-- The `available_domains` dict: an insertion-ordered association list. -/
abbrev Store := List (String × DomainRecord)

/-- Dict lookup `st[k]` / `k in st`. -/
def store_find : Store → String → Option DomainRecord
  | [], _ => none
  | (k2, v) :: rest, k => if k2 = k then some v else store_find rest k

/-- Dict assignment `st[k] = v`: replaces in place, appends when new. -/
def store_set : Store → String → DomainRecord → Store
  | [], k, v => [(k, v)]
  | (k2, v2) :: rest, k, v =>
    if k2 = k then (k, v) :: rest else (k2, v2) :: store_set rest k v

/-- The deduplication test of the sources loop:
`source.get('url') == url and source.get('article_url') == link.get('article_url', 'Unknown')`. -/
def source_matches (link : LinkInput) (s : SourceInfo) : Bool :=
  s.url == link.url && s.article_url == link.article_url.getD "Unknown"

/-- The `source_info` dict built for a dead link. -/
def make_source (link : LinkInput) : SourceInfo :=
  ⟨link.url, link.text, link.article_title.getD "Unknown", link.article_url.getD "Unknown"⟩

/-- The available-domains update a dead link with domain info triggers
(lines guarded by `if domain_info['available'] and not self.is_excluded_domain(domain)`):
create the record on first sight, then append the source unless an entry
with the same `(url, article_url)` pair is already present. -/
def update_available_domains (link : LinkInput) (domain : String)
    (di : AvailResult) (ts : String) (st : Store) : Store :=
  if di.available && !(is_excluded_domain domain) then
    let st1 := if (store_find st domain).isSome then st
               else store_set st domain ⟨domain, di.status, di.details, ts, []⟩
    match store_find st1 domain with
    | some rec0 =>
      if rec0.sources.any (source_matches link) then st1
      else store_set st1 domain { rec0 with sources := rec0.sources ++ [make_source link] }
    | none => st1
  else st

/-- The result dict returned by `check_link_status`. -/
structure LinkResult where
  url : String
  text : String
  status_code : StatusCode
  timestamp : String
  domain : Option String := none
  domain_available : Option Bool := none
  domain_status : Option String := none
  domain_details : Option Details := none
deriving DecidableEq, Repr

/-- Truthiness of the extracted domain (`if domain:`): a present,
non-empty string. -/
def domain_truthy : Option String → Bool
  | none => false
  | some s => s != ""

/-- `check_link_status(link)`.  `head` and `get` are the outcomes of the
HEAD attempt and of the GET retry (the latter consulted only when the
HEAD outcome is an error string or a code ≥ 400); `wres`, `dns`, `now`
feed the availability probe; `ts` is `datetime.now().isoformat()`;
`st` is the available-domains store, returned updated. -/
def check_link_status (link : LinkInput) (head get : StatusCode)
    (wres : WhoisOutcome) (dns : Bool) (now : Int) (ts : String)
    (st : Store) : LinkResult × Store :=
  let status := final_status head get
  let base : LinkResult := { url := link.url, text := link.text, status_code := status, timestamp := ts }
  if is_dead status then
    match extract_domain link.url with
    | some domain =>
      if domain = "" then (base, st)
      else
        let di := check_domain_availability domain wres dns now
        ({ base with
            domain := some domain
            domain_available := some di.available
            domain_status := some di.status
            domain_details := some di.details },
         update_available_domains link domain di ts st)
    | none => (base, st)
  else (base, st)

/-! ## Result-store loader -/

/-- `_load_existing_results` / `_load_available_domains`: `file` is the
file's contents when it exists, `parse` the JSON parse (`none` on
`json.JSONDecodeError`).  Returns the loaded map and whether an error was
reported; total, so no exception escapes. -/
def load_json_store (file : Option String)
    (parse : String → Option (List (String × DomainRecord))) :
    List (String × DomainRecord) × Bool :=
  match file with
  | none => ([], false)
  | some contents =>
    match parse contents with
    | some m => (m, false)
    | none => ([], true)

/-! ## Batch orchestrator -/

/-- A page handed to `batch_process_articles`. -/
structure Page where
  title : String
  url : String
deriving DecidableEq, Repr

/-- Python truthiness of the `max_pages` argument (`if max_pages:`):
`None` and `0` are falsy. -/
def max_pages_truthy : Option Nat → Bool
  | none => false
  | some n => n != 0

/-- `batch_process_articles(pages, max_pages)`: truncates to the first
`max_pages` pages only when `max_pages` is truthy, then processes the
pages sequentially (`process` standing for `process_article`), returning
the concatenated dead links and the number of processed pages. -/
def batch_process_articles {α : Type} (process : Page → List α)
    (pages : List Page) (max_pages : Option Nat) : List α × Nat :=
  let pages2 := if max_pages_truthy max_pages then pages.take (max_pages.getD 0) else pages
  ((pages2.map process).flatten, pages2.length)

/-! ## Claims -/

/-- Claim C1: in `check_domain_availability` the verdict rules are
evaluated top to bottom with the first match winning: an empty (falsy)
domain yields `{available:false, status:"Invalid domain"}`; otherwise an
excluded domain yields `{available:false, status:"Excluded domain"}` with
no WHOIS or DNS lookup performed (the verdict does not depend on their
outcomes); otherwise a restricted-TLD domain yields `available:false`
with a status beginning "Restricted TLD"; consequently the prober never
returns `available:true` for an excluded or restricted domain. -/
theorem C1_verdict_order (domain : String) (wres : WhoisOutcome) (dns : Bool) (now : Int) :
    (domain = "" →
      check_domain_availability domain wres dns now = ⟨false, "Invalid domain", Details.empty⟩)
    ∧ (domain ≠ "" → is_excluded_domain domain = true →
      check_domain_availability domain wres dns now
        = ⟨false, "Excluded domain",
            Details.info "This domain has been excluded from availability checks."⟩
      ∧ ∀ wres2 dns2 now2,
          check_domain_availability domain wres dns now
            = check_domain_availability domain wres2 dns2 now2)
    ∧ (domain ≠ "" → is_excluded_domain domain = false → is_restricted_tld domain = true →
      (check_domain_availability domain wres dns now).available = false
      ∧ str_starts_with (check_domain_availability domain wres dns now).status
          "Restricted TLD" = true)
    ∧ ((is_excluded_domain domain = true ∨ is_restricted_tld domain = true) →
      (check_domain_availability domain wres dns now).available = false) := by
  refine ⟨?_, ?_, ?_, ?_⟩
  · intro h
    simp [check_domain_availability, h]
  · intro h0 h1
    refine ⟨?_, ?_⟩
    · simp [check_domain_availability, h0, h1]
    · intro wres2 dns2 now2
      simp [check_domain_availability, h0, h1]
  · intro h0 h1 h2
    refine ⟨?_, ?_⟩
    · simp [check_domain_availability, h0, h1, h2]
    · simp [check_domain_availability, h0, h1, h2]
      decide
  · intro h
    by_cases h0 : domain = ""
    · simp [check_domain_availability, h0]
    · rcases h with h1 | h1
      · simp [check_domain_availability, h0, h1]
      · cases h2 : is_excluded_domain domain
        · simp [check_domain_availability, h0, h2, h1]
        · simp [check_domain_availability, h0, h2]

/-- Witness for C1 at concrete inputs: the excluded domain `foo.de` gets
the excluded verdict, and the restricted domain `example.ac.uk` is never
available. -/
theorem C1_witness :
    check_domain_availability "foo.de" WhoisOutcome.noRecord true 0
      = ⟨false, "Excluded domain",
          Details.info "This domain has been excluded from availability checks."⟩
    ∧ (check_domain_availability "example.ac.uk" WhoisOutcome.noRecord true 0).available
      = false := by
  refine ⟨?_, ?_⟩
  · exact ((C1_verdict_order "foo.de" WhoisOutcome.noRecord true 0).2.1
      (by decide) (by decide)).1
  · exact (C1_verdict_order "example.ac.uk" WhoisOutcome.noRecord true 0).2.2.2
      (Or.inr (by decide))

/-- Claim C2 counterexample: for `example.xyz` with registrar present and
expiration dates `[10, -10]` at `now = 0`, the earliest returned date
(`-10`) is in the past, yet the verdict is `Registered` with
`available:false`, not `Expired`: the code uses the *first* element of the
list (`expiry = expiry[0]`), not the earliest. -/
theorem C2_counterexample :
    (check_domain_availability "example.xyz"
      (WhoisOutcome.ok ⟨some "R", some (Sum.inr [10, -10]), "cd", "ed", "raw"⟩) true 0)
      = ⟨false, "Registered", Details.registered "R" "cd" "ed"⟩
    ∧ (-10 : Int) ∈ [(10 : Int), -10]
    ∧ (-10 : Int) < 0
    ∧ (∀ x ∈ [(10 : Int), -10], (-10 : Int) ≤ x) := by decide

/-- Claim C2 as amended: when the WHOIS lookup succeeds with a registrar
present and a list of expiration dates, the *first* entry of the list is
the one compared against the clock, and whenever that first date is in
the past the result is `{available:true, status:"Expired"}` with that
date and the registrar in the details. -/
theorem C2_first_expiry_expired (domain r : String) (d : Int) (ds : List Int)
    (cd ed raw : String) (dns : Bool) (now : Int)
    (h0 : domain ≠ "") (h1 : is_excluded_domain domain = false)
    (h2 : is_restricted_tld domain = false) (h3 : d < now) :
    check_domain_availability domain
      (WhoisOutcome.ok ⟨some r, some (Sum.inr (d :: ds)), cd, ed, raw⟩) dns now
      = ⟨true, "Expired", Details.expired d r⟩ := by
  simp [check_domain_availability, h0, h1, h2, first_expiry, h3]

/-- Witness for C2's amended theorem at concrete inputs. -/
theorem C2_witness :
    check_domain_availability "example.xyz"
      (WhoisOutcome.ok ⟨some "R", some (Sum.inr [-10, 10]), "cd", "ed", "raw"⟩) true 0
      = ⟨true, "Expired", Details.expired (-10) "R"⟩ :=
  C2_first_expiry_expired "example.xyz" "R" (-10) [10] "cd" "ed" "raw" true 0
    (by decide) (by decide) (by decide) (by decide)

/-- Claim C4 counterexample: `ac.uk` is an entry of the fixed restricted
list and equals its own last two labels joined by a dot, yet
`is_restricted_tld "ac.uk" = false` (the last-two-labels rule is only
reached for domains with more than two labels); likewise the single-label
domain `edu`, whose final label is `edu`, returns `false`. -/
theorem C4_counterexample :
    is_restricted_tld "ac.uk" = false
    ∧ last_two_labels "ac.uk" = "ac.uk".data
    ∧ restricted_tlds.any (fun t => t.data == last_two_labels "ac.uk") = true
    ∧ is_restricted_tld "edu" = false := by decide

/-- Claim C4 as amended: for every non-empty domain with at least two
dot-separated labels whose final label is one of
{edu, gov, mil, int, arpa}, `is_restricted_tld` returns true; for every
non-empty domain with more than two labels whose last two labels joined
by a dot are an entry of the fixed restricted list, it returns true (so
`example.ac.uk` is restricted while `ac.uk` itself is not); for every
single-label domain it returns false. -/
theorem C4_restricted_rules (domain : String) :
    (domain ≠ "" → 2 ≤ (domain_labels domain).length →
      (["edu", "gov", "mil", "int", "arpa"].any
        (fun t => t.data == (domain_labels domain).getLastD [])) = true →
      is_restricted_tld domain = true)
    ∧ (domain ≠ "" → 2 < (domain_labels domain).length →
      (restricted_tlds.any (fun t => t.data == last_two_labels domain)) = true →
      is_restricted_tld domain = true)
    ∧ ((domain_labels domain).length < 2 → is_restricted_tld domain = false) := by
  refine ⟨?_, ?_, ?_⟩
  · intro h0 h1 h2
    simp [is_restricted_tld, h0, Nat.not_lt.mpr h1]
    exact Or.inl (by simpa using h2)
  · intro h0 h1 h2
    by_cases h3 : (["edu", "gov", "mil", "int", "arpa"].any
        (fun t => t.data == (domain_labels domain).getLastD [])) = true
    · simp [is_restricted_tld, h0, Nat.not_lt.mpr h1.le]
      exact Or.inl (by simpa using h3)
    · rw [Bool.not_eq_true] at h3
      simp [is_restricted_tld, h0, h1, h2, h3, Nat.not_lt.mpr h1.le]
  · intro h1
    by_cases h0 : domain = ""
    · simp [is_restricted_tld, h0]
    · simp [is_restricted_tld, h0, h1]

/-- Witness for C4's amended theorem at concrete inputs. -/
theorem C4_witness :
    is_restricted_tld "example.ac.uk" = true
    ∧ is_restricted_tld "foo.gov" = true
    ∧ is_restricted_tld "localhost" = false := by
  refine ⟨?_, ?_, ?_⟩
  · exact (C4_restricted_rules "example.ac.uk").2.1 (by decide) (by decide) (by decide)
  · exact (C4_restricted_rules "foo.gov").1 (by decide) (by decide) (by decide)
  · exact (C4_restricted_rules "localhost").2.2 (by decide)

/-- Claim C7 counterexample: `"not a url"` has no parseable authority
component (`urlparse` yields an empty `netloc` without raising), yet
`extract_domain` returns the empty string, not `None`. -/
theorem C7_counterexample :
    urlparse_netloc "not a url" = Except.ok ""
    ∧ extract_domain "not a url" = some ""
    ∧ some "" ≠ (none : Option String) := by
  refine ⟨rfl, by decide, by decide⟩

/-- Claim C7 as amended: `extract_domain` returns `None` exactly when
`urlparse` raises (a mismatched IPv6 bracket in the authority); for every
URL whose authority parses — including URLs with no authority at all,
which yield the empty string — it returns the authority with a leading
`www.` stripped. -/
theorem C7_domain_of_netloc (url : String) :
    (∀ netloc, urlparse_netloc url = Except.ok netloc →
      extract_domain url
        = some (if str_starts_with netloc "www." then String.mk (netloc.data.drop 4)
                else netloc))
    ∧ (urlparse_netloc url = Except.error () → extract_domain url = none) := by
  constructor
  · intro netloc h
    simp [extract_domain, h]
  · intro h
    simp [extract_domain, h]

/-- Witness for C7's amended theorem at a concrete input. -/
theorem C7_witness :
    extract_domain "http://www.example.com/x" = some "example.com" := by
  have h := (C7_domain_of_netloc "http://www.example.com/x").1 "www.example.com" rfl
  rw [h]
  decide

/-- Claim C9: a missing store file loads as the empty map, and a store
file whose contents fail to parse as JSON loads as the empty map with an
error reported; the loader is a total function, so no exception escapes. -/
theorem C9_load_errors (contents : String)
    (parse : String → Option (List (String × DomainRecord))) :
    (parse contents = none → load_json_store (some contents) parse = ([], true))
    ∧ load_json_store none parse = ([], false) := by
  constructor
  · intro h
    simp [load_json_store, h]
  · rfl

/-- Witness for C9 at a concrete input. -/
theorem C9_witness :
    load_json_store (some "not json") (fun _ => none) = ([], true) :=
  (C9_load_errors "not json" (fun _ => none)).1 rfl

/-- Claim C10: `batch_process_articles` with `max_pages = 0` (or `None`)
performs no truncation — every page is processed and the returned count is
the full list length; truncation to the first `max_pages` entries happens
only for a truthy (non-null, nonzero) value. -/
theorem C10_max_pages_zero {α : Type} (process : Page → List α) (pages : List Page) :
    batch_process_articles process pages (some 0) = ((pages.map process).flatten, pages.length)
    ∧ batch_process_articles process pages none = ((pages.map process).flatten, pages.length)
    ∧ ∀ n, n ≠ 0 → batch_process_articles process pages (some n)
        = (((pages.take n).map process).flatten, (pages.take n).length) := by
  refine ⟨?_, ?_, ?_⟩
  · simp [batch_process_articles, max_pages_truthy]
  · simp [batch_process_articles, max_pages_truthy]
  · intro n hn
    simp [batch_process_articles, max_pages_truthy, hn]

/-- Witness for C10 at concrete inputs: `max_pages = 0` processes both
pages, `max_pages = 1` truncates to one. -/
theorem C10_witness :
    batch_process_articles (fun p => [p.title]) [⟨"a", "u"⟩, ⟨"b", "v"⟩] (some 0)
      = (["a", "b"], 2)
    ∧ batch_process_articles (fun p => [p.title]) [⟨"a", "u"⟩, ⟨"b", "v"⟩] (some 1)
      = (["a"], 1) := by
  constructor
  · have h := (C10_max_pages_zero (fun p => [p.title]) [⟨"a", "u"⟩, ⟨"b", "v"⟩]).1
    rw [h]
    decide
  · have h := (C10_max_pages_zero (fun p => [p.title]) [⟨"a", "u"⟩, ⟨"b", "v"⟩]).2.2 1
      (by decide)
    rw [h]
    decide

/-! ## Helper lemmas about the store, the prober and the checker -/

/-- Looking up a key just written finds the written record. -/
theorem store_find_set_self (st : Store) (k : String) (v : DomainRecord) :
    store_find (store_set st k v) k = some v := by
  induction st with
  | nil => simp [store_set, store_find]
  | cons hd tl ih =>
    obtain ⟨k2, v2⟩ := hd
    by_cases hk : k2 = k
    · simp [store_set, store_find, hk]
    · simp [store_set, store_find, hk, ih]

/-- Every entry of `store_set st k v` is the written pair or an entry of
`st`. -/
theorem store_set_mem {st : Store} {k : String} {v : DomainRecord} {p : String × DomainRecord}
    (h : p ∈ store_set st k v) : p = (k, v) ∨ p ∈ st := by
  induction st with
  | nil =>
    simp [store_set] at h
    simp [h]
  | cons hd tl ih =>
    obtain ⟨k2, v2⟩ := hd
    rw [store_set] at h
    by_cases hk : k2 = k
    · rw [if_pos hk] at h
      rcases List.mem_cons.mp h with h | h
      · exact Or.inl h
      · exact Or.inr (List.mem_cons_of_mem _ h)
    · rw [if_neg hk] at h
      rcases List.mem_cons.mp h with h | h
      · exact Or.inr (h ▸ List.mem_cons_self _ _)
      · rcases ih h with h | h
        · exact Or.inl h
        · exact Or.inr (List.mem_cons_of_mem _ h)

/-- An `available:true` verdict is only ever produced for a domain that is
neither excluded nor restricted: all three early guards return
`available:false`, and the DNS fallback re-checks both. -/
theorem avail_imp_not_excluded_restricted (domain : String) (wres : WhoisOutcome)
    (dns : Bool) (now : Int)
    (h : (check_domain_availability domain wres dns now).available = true) :
    is_excluded_domain domain = false ∧ is_restricted_tld domain = false := by
  by_cases h0 : domain = ""
  · simp [check_domain_availability, h0] at h
  · by_cases h1 : is_excluded_domain domain = true
    · simp [check_domain_availability, h0, h1] at h
    · rw [Bool.not_eq_true] at h1
      by_cases h2 : is_restricted_tld domain = true
      · simp [check_domain_availability, h0, h1, h2] at h
      · rw [Bool.not_eq_true] at h2
        exact ⟨h1, h2⟩

/-- A HEAD outcome that is an error string or a code ≥ 400 makes the GET
outcome final. -/
theorem final_status_of_bad (head get : StatusCode) (h : is_dead head = true) :
    final_status head get = get := by
  cases head with
  | inl msg => rfl
  | inr code =>
    simp [is_dead] at h
    simp [final_status, h]

/-- A HEAD outcome that is a code below 400 is itself final. -/
theorem final_status_of_good (head get : StatusCode) (h : is_dead head = false) :
    final_status head get = head := by
  cases head with
  | inl msg => simp [is_dead] at h
  | inr code =>
    simp [is_dead] at h
    simp [final_status, Nat.not_le.mpr h]

/-- The `status_code` of the returned link dict is always the final
HEAD/GET outcome. -/
theorem check_link_status_code (link : LinkInput) (head get : StatusCode)
    (wres : WhoisOutcome) (dns : Bool) (now : Int) (ts : String) (st : Store) :
    (check_link_status link head get wres dns now ts st).1.status_code
      = final_status head get := by
  by_cases h : is_dead (final_status head get) = true
  · cases hd : extract_domain link.url with
    | none => simp [check_link_status, h, hd]
    | some d =>
      by_cases hd0 : d = ""
      · simp [check_link_status, h, hd, hd0]
      · simp [check_link_status, h, hd, hd0]
  · rw [Bool.not_eq_true] at h
    simp [check_link_status, h]

/-- The source dict built for a link matches itself under the
deduplication test. -/
theorem make_source_self_matches (link : LinkInput) :
    source_matches link (make_source link) = true := by
  simp [source_matches, make_source]

/-- Claim C3: when the HEAD attempt raises or returns a status ≥ 400, the
single GET retry's outcome becomes the final status; otherwise the HEAD
status is final; the domain-availability probe runs (the result carries
domain fields) exactly when the final status is dead and the link's URL
yields a truthy domain; and the link is classified dead if and only if the
final status is a string or an integer ≥ 400. -/
theorem C3_head_get_retry (link : LinkInput) (head get : StatusCode)
    (wres : WhoisOutcome) (dns : Bool) (now : Int) (ts : String) (st : Store) :
    (is_dead head = true →
      (check_link_status link head get wres dns now ts st).1.status_code = get)
    ∧ (is_dead head = false →
      (check_link_status link head get wres dns now ts st).1.status_code = head)
    ∧ ((check_link_status link head get wres dns now ts st).1.domain_available.isSome
        = (is_dead (final_status head get) && domain_truthy (extract_domain link.url)))
    ∧ (is_dead (final_status head get) = true
        ↔ (∃ msg, final_status head get = Sum.inl msg)
          ∨ ∃ code, final_status head get = Sum.inr code ∧ 400 ≤ code) := by
  refine ⟨?_, ?_, ?_, ?_⟩
  · intro h
    rw [check_link_status_code, final_status_of_bad head get h]
  · intro h
    rw [check_link_status_code, final_status_of_good head get h]
  · by_cases h : is_dead (final_status head get) = true
    · cases hd : extract_domain link.url with
      | none => simp [check_link_status, h, hd, domain_truthy]
      | some d =>
        by_cases hd0 : d = ""
        · simp [check_link_status, h, hd, hd0, domain_truthy]
        · simp [check_link_status, h, hd, hd0, domain_truthy]
    · rw [Bool.not_eq_true] at h
      simp [check_link_status, h]
  · cases hs : final_status head get with
    | inl msg =>
      simp [is_dead]
    | inr code =>
      simp [is_dead]

/-- Witness for C3 at concrete inputs: a HEAD 500 retried by GET ends at
the GET's 404, and a HEAD 200 is final. -/
theorem C3_witness :
    (check_link_status ⟨"http://deadsite.xyz/p", "t", some "A", some "http://w/A"⟩
        (Sum.inr 500) (Sum.inr 404) WhoisOutcome.noRecord false 0 "TS" []).1.status_code
      = Sum.inr 404
    ∧ (check_link_status ⟨"http://deadsite.xyz/p", "t", some "A", some "http://w/A"⟩
        (Sum.inr 200) (Sum.inr 404) WhoisOutcome.noRecord false 0 "TS" []).1.status_code
      = Sum.inr 200 := by
  constructor
  · exact (C3_head_get_retry ⟨"http://deadsite.xyz/p", "t", some "A", some "http://w/A"⟩
      (Sum.inr 500) (Sum.inr 404) WhoisOutcome.noRecord false 0 "TS" []).1 (by decide)
  · exact (C3_head_get_retry ⟨"http://deadsite.xyz/p", "t", some "A", some "http://w/A"⟩
      (Sum.inr 200) (Sum.inr 404) WhoisOutcome.noRecord false 0 "TS" []).2.1 (by decide)

/-- When the guard passes and the domain is new, the update creates the
record and then appends the link's source entry. -/
theorem update_available_domains_fresh (link : LinkInput) (d : String) (di : AvailResult)
    (ts : String) (st : Store)
    (hguard : (di.available && !(is_excluded_domain d)) = true)
    (hnew : store_find st d = none) :
    update_available_domains link d di ts st
      = store_set (store_set st d ⟨d, di.status, di.details, ts, []⟩) d
          ⟨d, di.status, di.details, ts, [make_source link]⟩ := by
  simp [update_available_domains, hguard, hnew, store_find_set_self]

/-- When the guard passes, the record exists and already holds a matching
source, the update is a no-op. -/
theorem update_available_domains_dup (link : LinkInput) (d : String) (di : AvailResult)
    (ts : String) (st : Store) (rec0 : DomainRecord)
    (hguard : (di.available && !(is_excluded_domain d)) = true)
    (hfound : store_find st d = some rec0)
    (hdup : rec0.sources.any (source_matches link) = true) :
    update_available_domains link d di ts st = st := by
  simp [update_available_domains, hguard, hfound, hdup]

/-- For a dead link with a truthy domain, the checker's store output is
exactly the available-domains update. -/
theorem check_link_status_store (link : LinkInput) (head get : StatusCode)
    (wres : WhoisOutcome) (dns : Bool) (now : Int) (ts : String) (st : Store) (d : String)
    (hdead : is_dead (final_status head get) = true)
    (hdom : extract_domain link.url = some d) (hne : d ≠ "") :
    (check_link_status link head get wres dns now ts st).2
      = update_available_domains link d (check_domain_availability d wres dns now) ts st := by
  simp [check_link_status, hdead, hdom, hne]

/-- Every entry of the updated store is an entry of the old store, or
carries the updated domain as key with the insertion guard satisfied. -/
theorem update_available_domains_mem (link : LinkInput) (d : String) (di : AvailResult)
    (ts : String) (st : Store) (p : String × DomainRecord)
    (hp : p ∈ update_available_domains link d di ts st) :
    p ∈ st ∨ (p.1 = d ∧ (di.available && !(is_excluded_domain d)) = true) := by
  by_cases hguard : (di.available && !(is_excluded_domain d)) = true
  · simp only [update_available_domains, hguard, if_true] at hp
    cases h0 : store_find st d with
    | some rec0 =>
      simp only [h0, Option.isSome_some, if_true] at hp
      by_cases hdup : rec0.sources.any (source_matches link) = true
      · rw [if_pos hdup] at hp
        exact Or.inl hp
      · rw [if_neg hdup] at hp
        rcases store_set_mem hp with h | h
        · exact Or.inr ⟨by rw [h], hguard⟩
        · exact Or.inl h
    | none =>
      simp only [h0, Option.isSome_none, Bool.false_eq_true, if_false,
        store_find_set_self] at hp
      simp only [List.any_nil, Bool.false_eq_true, if_false] at hp
      rcases store_set_mem hp with h | h
      · exact Or.inr ⟨by rw [h], hguard⟩
      · rcases store_set_mem h with h2 | h2
        · exact Or.inr ⟨by rw [h2], hguard⟩
        · exact Or.inl h2
  · rw [update_available_domains, if_neg hguard] at hp
    exact Or.inl hp

/-- Claim C5: processing the same dead link twice is idempotent for the
available-domains store.  For a dead link whose domain is available and
not yet recorded, the first processing creates the DomainRecord; the
second processing leaves the store unchanged, and the record holds
exactly one source entry matching the link's `(url, article_url)` pair. -/
theorem C5_reprocess_idempotent (link : LinkInput) (head get : StatusCode)
    (wres : WhoisOutcome) (dns : Bool) (now : Int) (ts : String) (st0 : Store) (d : String)
    (hdead : is_dead (final_status head get) = true)
    (hdom : extract_domain link.url = some d)
    (hne : d ≠ "")
    (havail : (check_domain_availability d wres dns now).available = true)
    (hnew : store_find st0 d = none) :
    (check_link_status link head get wres dns now ts
        (check_link_status link head get wres dns now ts st0).2).2
      = (check_link_status link head get wres dns now ts st0).2
    ∧ ∃ rec, store_find (check_link_status link head get wres dns now ts st0).2 d = some rec
        ∧ rec.sources.countP (source_matches link) = 1 := by
  obtain ⟨hexc, -⟩ := avail_imp_not_excluded_restricted d wres dns now havail
  have hguard : ((check_domain_availability d wres dns now).available
      && !(is_excluded_domain d)) = true := by
    rw [havail, hexc]
    rfl
  have hst1 := check_link_status_store link head get wres dns now ts st0 d hdead hdom hne
  rw [update_available_domains_fresh link d _ ts st0 hguard hnew] at hst1
  have hfind1 : store_find (check_link_status link head get wres dns now ts st0).2 d
      = some ⟨d, (check_domain_availability d wres dns now).status,
          (check_domain_availability d wres dns now).details, ts, [make_source link]⟩ := by
    rw [hst1]
    exact store_find_set_self _ _ _
  have hst2 := check_link_status_store link head get wres dns now ts
      (check_link_status link head get wres dns now ts st0).2 d hdead hdom hne
  rw [update_available_domains_dup link d _ ts _ _ hguard hfind1
      (by simp [make_source_self_matches])] at hst2
  refine ⟨hst2, _, hfind1, ?_⟩
  simp [List.countP_cons, make_source_self_matches]

/-- Witness for C5 at concrete inputs: a dead 404 link on an available
`deadsite.xyz`, processed twice from an empty store. -/
theorem C5_witness :
    (check_link_status ⟨"http://deadsite.xyz/p", "t", some "A", some "http://w/A"⟩
        (Sum.inr 404) (Sum.inr 404) WhoisOutcome.noRecord false 0 "TS"
        (check_link_status ⟨"http://deadsite.xyz/p", "t", some "A", some "http://w/A"⟩
          (Sum.inr 404) (Sum.inr 404) WhoisOutcome.noRecord false 0 "TS" []).2).2
      = (check_link_status ⟨"http://deadsite.xyz/p", "t", some "A", some "http://w/A"⟩
          (Sum.inr 404) (Sum.inr 404) WhoisOutcome.noRecord false 0 "TS" []).2
    ∧ ∃ rec, store_find (check_link_status
          ⟨"http://deadsite.xyz/p", "t", some "A", some "http://w/A"⟩
          (Sum.inr 404) (Sum.inr 404) WhoisOutcome.noRecord false 0 "TS" []).2
          "deadsite.xyz" = some rec
        ∧ rec.sources.countP
            (source_matches ⟨"http://deadsite.xyz/p", "t", some "A", some "http://w/A"⟩)
            = 1 :=
  C5_reprocess_idempotent ⟨"http://deadsite.xyz/p", "t", some "A", some "http://w/A"⟩
    (Sum.inr 404) (Sum.inr 404) WhoisOutcome.noRecord false 0 "TS" [] "deadsite.xyz"
    (by decide) (by decide) (by decide) (by decide) (by decide)

/-- Claim C6: the prober returns `available:true` only for domains that
pass both the exclusion and the restricted-TLD check; the checker
preserves the invariant that every key of the available-domains store is
a non-excluded domain; and a returned link record with
`domain_available = true` carries a domain for which both checks are
false. -/
theorem C6_store_invariant :
    (∀ domain wres dns now,
      (check_domain_availability domain wres dns now).available = true →
      is_excluded_domain domain = false ∧ is_restricted_tld domain = false)
    ∧ (∀ (link : LinkInput) (head get : StatusCode) (wres : WhoisOutcome) (dns : Bool)
        (now : Int) (ts : String) (st : Store),
      (∀ p ∈ st, is_excluded_domain p.1 = false) →
      ∀ p ∈ (check_link_status link head get wres dns now ts st).2,
        is_excluded_domain p.1 = false)
    ∧ (∀ (link : LinkInput) (head get : StatusCode) (wres : WhoisOutcome) (dns : Bool)
        (now : Int) (ts : String) (st : Store) (d : String),
      (check_link_status link head get wres dns now ts st).1.domain_available = some true →
      (check_link_status link head get wres dns now ts st).1.domain = some d →
      is_excluded_domain d = false ∧ is_restricted_tld d = false) := by
  refine ⟨avail_imp_not_excluded_restricted, ?_, ?_⟩
  · intro link head get wres dns now ts st hst p hp
    by_cases hdead : is_dead (final_status head get) = true
    · cases hd : extract_domain link.url with
      | none =>
        simp only [check_link_status, hdead, if_true, hd] at hp
        exact hst p hp
      | some d =>
        by_cases hd0 : d = ""
        · simp only [check_link_status, hdead, if_true, hd, hd0, if_pos] at hp
          exact hst p hp
        · rw [check_link_status_store link head get wres dns now ts st d hdead hd hd0] at hp
          rcases update_available_domains_mem _ _ _ _ _ _ hp with h | ⟨hpd, hguard⟩
          · exact hst p h
          · have hand := (Bool.and_eq_true _ _).mp hguard
            rw [hpd]
            simpa using hand.2
    · rw [Bool.not_eq_true] at hdead
      simp only [check_link_status, hdead, Bool.false_eq_true, if_false] at hp
      exact hst p hp
  · intro link head get wres dns now ts st d h1 h2
    by_cases hdead : is_dead (final_status head get) = true
    · cases hd : extract_domain link.url with
      | none => simp [check_link_status, hdead, hd] at h1
      | some d2 =>
        by_cases hd0 : d2 = ""
        · simp [check_link_status, hdead, hd, hd0] at h1
        · simp [check_link_status, hdead, hd, hd0] at h1 h2
          subst h2
          exact avail_imp_not_excluded_restricted d2 wres dns now h1
    · rw [Bool.not_eq_true] at hdead
      simp [check_link_status, hdead] at h1

/-- Witness for C6 at concrete inputs: the link-record clause applied to a
dead 404 link whose domain `deadsite.xyz` probes available. -/
theorem C6_witness :
    is_excluded_domain "deadsite.xyz" = false ∧ is_restricted_tld "deadsite.xyz" = false :=
  C6_store_invariant.2.2 ⟨"http://deadsite.xyz/p", "t", some "A", some "http://w/A"⟩
    (Sum.inr 404) (Sum.inr 404) WhoisOutcome.noRecord false 0 "TS" [] "deadsite.xyz"
    (by decide) (by decide)

/-- Claim C8 counterexample: an anchor whose href is
`http://web.archive.org/web/1` targets the web archive service (its
extracted domain is `web.archive.org`), yet the extractor emits an entry
for it: only the `https://`-prefixed archive URLs are skipped. -/
theorem C8_counterexample :
    extract_external_links ⟨none, [⟨some "http://web.archive.org/web/1", "t"⟩]⟩
      = [⟨"http://web.archive.org/web/1", "t"⟩]
    ∧ extract_domain "http://web.archive.org/web/1" = some "web.archive.org" := by decide

/-- Claim C8 as amended: no entry produced by `extract_external_links`,
from either the External-links-section walk or the blanket external-marker
scan, has a URL starting with `https://web.archive.org`; archive URLs
with another scheme (e.g. `http://`) are not excluded. -/
theorem C8_no_https_archive (doc : SoupDoc) :
    (extract_external_links doc).all
      (fun e => !(str_starts_with e.url "https://web.archive.org")) = true := by
  rw [List.all_eq_true]
  intro e he
  have key : ∀ a : Anchor, anchor_entry a = some e →
      str_starts_with e.url "https://web.archive.org" = false := by
    intro a h
    obtain ⟨href, text⟩ := a
    cases href with
    | none => simp [anchor_entry] at h
    | some url =>
      by_cases hs : str_starts_with url "https://web.archive.org" = true
      · simp [anchor_entry, hs] at h
      · rw [Bool.not_eq_true] at hs
        simp [anchor_entry, hs] at h
        rw [← h]
        exact hs
  rw [extract_external_links] at he
  rcases List.mem_append.mp he with h | h
  · cases hsec : doc.ext_section_lis with
    | none =>
      rw [hsec] at h
      cases h
    | some lis =>
      rw [hsec] at h
      obtain ⟨li, -, hli⟩ := List.mem_flatMap.mp h
      obtain ⟨a, -, ha⟩ := List.mem_filterMap.mp hli
      simp [key a ha]
  · obtain ⟨a, -, ha⟩ := List.mem_filterMap.mp h
    simp [key a ha]
